import Mathlib

/-!
Verification of the setlist-builder backend's ordered-collection model.

The definitions below are a shallow embedding of the setlist controller
(`setlist.controller.js`): the relational store is a record of entity
lists, each REST handler becomes a function from the store (plus the
authenticated actor and request payload) to `Except ApiError` of the
resulting store and/or response.  Opaque UUID identifiers are modelled
as `Nat`; SQL `position` columns as `Int`; nullable columns as `Option`.
Sequelize's `findByPk`/`findOne` become `List.find?` (first match in row
order), `destroy` of a found row becomes removal of the first matching
row, and `ORDER BY position ASC` becomes a stable insertion sort on the
position field.
-/

namespace SetlistApp

/-- Band membership role; the controller only ever distinguishes the
string `admin` from everything else. -/
inductive Role where
  | admin
  | member
  deriving DecidableEq

/-- Row of the `songs` table (only the columns the controller logic reads). -/
structure Song where
  id : Nat
  title : String
  deriving DecidableEq

/-- Row of the `blocks` table: a named ordered partition of one setlist. -/
structure Block where
  id : Nat
  setlist_id : Nat
  name : String
  position : Int
  deriving DecidableEq

/-- Row of the `setlist_songs` join table: carries position and optional
block membership. -/
structure SetlistSong where
  id : Nat
  setlist_id : Nat
  song_id : Nat
  position : Int
  block_id : Option Nat
  notes : Option String
  deriving DecidableEq

/-- Row of the `setlists` table. -/
structure Setlist where
  id : Nat
  name : String
  description : Option String
  band_id : Option Nat
  created_by : Nat
  is_public : Bool
  deriving DecidableEq

/-- Row of the `band_members` join table. -/
structure BandMember where
  band_id : Nat
  user_id : Nat
  role : Role
  deriving DecidableEq

/-- The relational store the controller operates on. -/
structure DB where
  setlists : List Setlist
  setlistSongs : List SetlistSong
  blocks : List Block
  songs : List Song
  bandMembers : List BandMember
  deriving DecidableEq

/-- Typed errors of the HTTP surface: 404, 403, 400 and 500 respectively. -/
inductive ApiError where
  | NotFound
  | PermissionDenied
  | InvalidInput
  | ServerError
  deriving DecidableEq

deriving instance DecidableEq for Except

/-- Whether an `Except` result is a success. -/
def isOkB {ε α : Type} : Except ε α → Bool
  | .ok _ => true
  | .error _ => false

/-- Mirrors the `isUserBandMember(userId, bandId)` helper.  A null band
id returns `false` without touching the store.  Any non-null band id
reaches `BandMember.findOne` — but `BandMember` is never imported by the
controller, so that statement throws a `ReferenceError`; the calling
handler's `try/catch` turns it into a 500 response, modelled as
`ApiError.ServerError`.  The helper therefore never reads the
`band_members` table and never returns `true`. -/
def isUserBandMember (_userId : Nat) (bandId : Option Nat) : Except ApiError Bool :=
  match bandId with
  | none => .ok false
  | some _ => .error .ServerError

/-- Mirrors the guard shared by the add/remove/reorder/share handlers:
`if (setlist.created_by !== req.user.id && !await isUserBandMember(...))
return 403`.  The creator short-circuits without calling the helper;
otherwise the helper's boolean decides, and its throw propagates as the
500 the handler's catch produces. -/
def writeGuard (userId : Nat) (s : Setlist) : Except ApiError Unit :=
  if s.created_by == userId then .ok ()
  else
    match isUserBandMember userId s.band_id with
    | .error e => .error e
    | .ok true => .ok ()
    | .ok false => .error .PermissionDenied

/-- Mirrors `Setlist.findByPk(id)`. -/
def findSetlist (db : DB) (slid : Nat) : Option Setlist :=
  db.setlists.find? (fun s => s.id == slid)

/-- Ordering relation used by every `ORDER BY position ASC` query on
`setlist_songs`: compare the entry position only. -/
def entryLe (a b : SetlistSong) : Prop := a.position ≤ b.position

instance : DecidableRel entryLe :=
  fun a b => inferInstanceAs (Decidable (a.position ≤ b.position))

instance : IsTotal SetlistSong entryLe := ⟨fun a b => Int.le_total a.position b.position⟩

instance : IsTrans SetlistSong entryLe := ⟨fun _ _ _ h₁ h₂ => le_trans h₁ h₂⟩

/-- Model of `ORDER BY position ASC` on `setlist_songs`: a stable sort on
the entry position, keeping row order on ties. -/
def sortByPosition (l : List SetlistSong) : List SetlistSong :=
  List.insertionSort entryLe l

/-- The `setlist_songs` rows belonging to one setlist, in row order
(the `WHERE setlist_id = :id` part of the queries). -/
def songsOf (db : DB) (slid : Nat) : List SetlistSong :=
  db.setlistSongs.filter (fun e => e.setlist_id == slid)

/-- Mirrors `getSetlistById`.  The handler computes
`created_by === user || is_public || setlist.band.members.some(...)`;
when the setlist has no band, `setlist.band` is `null` and reading
`.members` throws a `TypeError`, which the surrounding `try` turns into
a 500 response — modelled as `ApiError.ServerError`. -/
def getSetlistById (db : DB) (userId slid : Nat) : Except ApiError Setlist :=
  match findSetlist db slid with
  | none => .error .NotFound
  | some s =>
    if s.created_by == userId || s.is_public then .ok s
    else
      match s.band_id with
      | none => .error .ServerError
      | some b =>
        if db.bandMembers.any (fun m => m.band_id == b && m.user_id == userId) then .ok s
        else .error .PermissionDenied

/-- Mirrors `getSetlistSongs`: the handler computes
`created_by === user || is_public || await isUserBandMember(...)` — the
creator and public cases short-circuit; otherwise the helper runs (and
for a banded setlist its `ReferenceError` on the never-imported
`BandMember` becomes a 500); on access the rows of the setlist are
returned ordered by `position ASC`. -/
def getSetlistSongs (db : DB) (userId slid : Nat) : Except ApiError (List SetlistSong) :=
  match findSetlist db slid with
  | none => .error .NotFound
  | some s =>
    if s.created_by == userId || s.is_public then
      .ok (sortByPosition (songsOf db slid))
    else
      match isUserBandMember userId s.band_id with
      | .error e => .error e
      | .ok true => .ok (sortByPosition (songsOf db slid))
      | .ok false => .error .PermissionDenied

/-- Body of a `PUT /api/setlists/:id` request; absent fields are left
unchanged by the handler. -/
structure UpdateSetlistReq where
  name : Option String
  description : Option (Option String)
  is_public : Option Bool
  deriving DecidableEq

/-- Field-wise update performed by `updateSetlist` once authorized. -/
def applySetlistUpdate (r : UpdateSetlistReq) (s : Setlist) : Setlist :=
  let s1 := match r.name with | none => s | some n => { s with name := n }
  let s2 := match r.description with | none => s1 | some d => { s1 with description := d }
  match r.is_public with | none => s2 | some p => { s2 with is_public := p }

/-- Mirrors `updateSetlist`: the creator updates the row.  A non-creator
on a banded setlist reaches the inline
`BandMember.findOne({band_id, user_id, role: admin})` — but `BandMember`
is never imported, so the check throws and the handler responds 500 for
admins and non-admins alike; a non-creator on a band-less setlist is
denied with 403. -/
def updateSetlist (db : DB) (userId slid : Nat) (r : UpdateSetlistReq) : Except ApiError DB :=
  match findSetlist db slid with
  | none => .error .NotFound
  | some s =>
    let updated : DB :=
      { db with setlists := db.setlists.map (fun t => if t.id == slid then applySetlistUpdate r t else t) }
    if s.created_by == userId then .ok updated
    else
      match s.band_id with
      | some _ => .error .ServerError
      | none => .error .PermissionDenied

/-- Mirrors `deleteSetlist`: same (broken) authorization as
`updateSetlist` — a non-creator gets 500 on a banded setlist (the
never-imported `BandMember` throws) and 403 on a band-less one.  On the
creator path it destroys all `setlist_songs` rows of the setlist, then
all `blocks` rows, then the setlist row itself. -/
def deleteSetlist (db : DB) (userId slid : Nat) : Except ApiError DB :=
  match findSetlist db slid with
  | none => .error .NotFound
  | some s =>
    let deleted : DB :=
      { db with
        setlistSongs := db.setlistSongs.filter (fun e => !(e.setlist_id == slid)),
        blocks := db.blocks.filter (fun bl => !(bl.setlist_id == slid)),
        setlists := db.setlists.filter (fun t => !(t.id == slid)) }
    if s.created_by == userId then .ok deleted
    else
      match s.band_id with
      | some _ => .error .ServerError
      | none => .error .PermissionDenied

/-- Body of a `POST /api/setlists/:id/songs` request. -/
structure AddSongReq where
  song_id : Nat
  position : Int
  block_id : Option Nat
  notes : Option String
  deriving DecidableEq

/-- The `setlist_songs` row created by `addSongToSetlist` (`newId` stands
for the freshly generated UUID). -/
def newEntry (slid : Nat) (r : AddSongReq) (newId : Nat) : SetlistSong :=
  { id := newId, setlist_id := slid, song_id := r.song_id, position := r.position,
    block_id := r.block_id, notes := r.notes }

/-- Mirrors `addSongToSetlist`: the handler requires (in order) that the
setlist exists, that the write guard passes, that the song exists, and —
when a block id is supplied — that the block exists and belongs to this
setlist; then it inserts the new row. -/
def addSongToSetlist (db : DB) (userId slid : Nat) (r : AddSongReq) (newId : Nat) :
    Except ApiError DB :=
  match findSetlist db slid with
  | none => .error .NotFound
  | some s =>
    match writeGuard userId s with
    | .error e => .error e
    | .ok _ =>
      if db.songs.any (fun t => t.id == r.song_id) then
        match r.block_id with
        | some b =>
          match db.blocks.find? (fun bl => bl.id == b) with
          | none => .error .InvalidInput
          | some bl =>
            if bl.setlist_id == slid then
              .ok { db with setlistSongs := db.setlistSongs ++ [newEntry slid r newId] }
            else .error .InvalidInput
        | none => .ok { db with setlistSongs := db.setlistSongs ++ [newEntry slid r newId] }
      else .error .NotFound

/-- Removes the first list element satisfying `p` (a `findOne` followed by
`destroy` of the found row). -/
def removeFirst {α : Type} (p : α → Bool) : List α → List α
  | [] => []
  | x :: xs => if p x then xs else x :: removeFirst p xs

/-- Mirrors `removeSongFromSetlist`: after the same write guard as
`addSongToSetlist`, the first `setlist_songs` row matching the setlist id
and song id is looked up (`findOne`) and destroyed by its primary key;
absence yields 404. -/
def removeSongFromSetlist (db : DB) (userId slid songId : Nat) : Except ApiError DB :=
  match findSetlist db slid with
  | none => .error .NotFound
  | some s =>
    match writeGuard userId s with
    | .error e => .error e
    | .ok _ =>
      match db.setlistSongs.find? (fun e => e.setlist_id == slid && e.song_id == songId) with
      | none => .error .NotFound
      | some e => .ok { db with setlistSongs := removeFirst (fun x => x.id == e.id) db.setlistSongs }

/-- One element of the `songs` array of a reorder request. -/
structure ReorderUpdate where
  id : Nat
  position : Int
  block_id : Option Nat
  deriving DecidableEq

/-- Mirrors `reorderSetlistSongs`.  The request is rejected with 400 when
the `songs` payload is missing or empty — before the setlist lookup and
the write guard.  Once the guard passes, the handler executes
`await sequelize.transaction(...)` — but `sequelize` is never imported by
the controller, so that statement throws a `ReferenceError` before any
UPDATE runs; the catch responds 500 and no update is ever applied.  The
operation therefore never succeeds, and the result type's success
component is never produced. -/
def reorderSetlistSongs (db : DB) (userId slid : Nat) (songs : Option (List ReorderUpdate)) :
    Except ApiError (DB × List SetlistSong) :=
  match songs with
  | none => .error .InvalidInput
  | some us =>
    if us.isEmpty then .error .InvalidInput
    else
      match findSetlist db slid with
      | none => .error .NotFound
      | some s =>
        match writeGuard userId s with
        | .error e => .error e
        | .ok _ => .error .ServerError

/-- Store resulting from a call: an `ok` result carries the new store, an
error response leaves the store as it was. -/
def stateAfter (db : DB) (r : Except ApiError (DB × List SetlistSong)) : DB :=
  match r with
  | .ok (db2, _) => db2
  | .error _ => db

/-- Mirrors the `removeSongFromSetlist.fulfilled` case of the Redux
setlists slice: the client store keeps only the entries whose `song_id`
differs from the removed one. -/
def removeSongFulfilled (songs : List SetlistSong) (songId : Nat) : List SetlistSong :=
  songs.filter (fun e => !(e.song_id == songId))

/-- Boolean pairwise check: `r` holds for every pair in list order. -/
def pairwiseB {α : Type} (r : α → α → Bool) : List α → Bool
  | [] => true
  | x :: xs => xs.all (r x) && pairwiseB r xs

/-- Position of the block an entry is assigned to, when the entry has a
block and that block exists. -/
def blockPosOf (db : DB) (e : SetlistSong) : Option Int :=
  e.block_id.bind (fun bid => (db.blocks.find? (fun bl => bl.id == bid)).map (fun bl => bl.position))

/-- Comparison on the owning blocks of two entries; vacuously true when
either entry has no resolvable block. -/
def blockLe (db : DB) (a b : SetlistSong) : Bool :=
  match blockPosOf db a, blockPosOf db b with
  | some pa, some pb => decide (pa ≤ pb)
  | _, _ => true

/-- Modelled from the spec's wording, not from the code: a necessary
condition of "entries ordered by block position, then by entry position
within block" — any two block-assigned entries must appear in ascending
order of their blocks' positions.  Used to compare the specified ordering
with what `getSetlistSongs` actually produces. -/
def specGroupedByBlock (db : DB) (l : List SetlistSong) : Bool :=
  pairwiseB (blockLe db) l

/-! ### Concrete stores used by the counterexamples and witnesses -/

/-- Store for the listing-order counterexample: one setlist with two
blocks; the entry in the later block carries the smaller entry position. -/
def c2db : DB :=
  { setlists :=
      [ { id := 1, name := "Show", description := none, band_id := none,
          created_by := 10, is_public := false } ],
    setlistSongs :=
      [ { id := 101, setlist_id := 1, song_id := 5, position := 5, block_id := some 31, notes := none },
        { id := 102, setlist_id := 1, song_id := 6, position := 3, block_id := some 32, notes := none } ],
    blocks :=
      [ { id := 31, setlist_id := 1, name := "Set 1", position := 1 },
        { id := 32, setlist_id := 1, name := "Encore", position := 2 } ],
    songs := [ { id := 5, title := "A" }, { id := 6, title := "B" } ],
    bandMembers := [] }

/-- Store for the access-control claim: setlist 1 is private and has no
band; setlist 2 is private and owned by band 5; user 99 is a stranger to
both. -/
def c3db : DB :=
  { setlists :=
      [ { id := 1, name := "Solo", description := none, band_id := none,
          created_by := 10, is_public := false },
        { id := 2, name := "Banded", description := none, band_id := some 5,
          created_by := 10, is_public := false } ],
    setlistSongs := [],
    blocks := [],
    songs := [],
    bandMembers := [ { band_id := 5, user_id := 10, role := Role.admin } ] }

/-- Store for the role-asymmetry claim: a private band setlist created by
user 10; user 20 is a plain member of band 5 and user 30 a band admin. -/
def w4db : DB :=
  { setlists :=
      [ { id := 1, name := "Band show", description := none, band_id := some 5,
          created_by := 10, is_public := false } ],
    setlistSongs :=
      [ { id := 300, setlist_id := 1, song_id := 7, position := 1, block_id := none, notes := none } ],
    blocks := [],
    songs := [ { id := 7, title := "C" } ],
    bandMembers :=
      [ { band_id := 5, user_id := 20, role := Role.member },
        { band_id := 5, user_id := 30, role := Role.admin } ] }

/-- Store for the cascade witness: one setlist with three blocks and two
entries. -/
def w5db : DB :=
  { setlists :=
      [ { id := 1, name := "S", description := none, band_id := none,
          created_by := 10, is_public := false } ],
    setlistSongs :=
      [ { id := 201, setlist_id := 1, song_id := 5, position := 1, block_id := some 41, notes := none },
        { id := 202, setlist_id := 1, song_id := 6, position := 2, block_id := some 42, notes := none } ],
    blocks :=
      [ { id := 41, setlist_id := 1, name := "Set 1", position := 1 },
        { id := 42, setlist_id := 1, name := "Set 2", position := 2 },
        { id := 43, setlist_id := 1, name := "Encore", position := 3 } ],
    songs := [ { id := 5, title := "A" }, { id := 6, title := "B" } ],
    bandMembers := [] }

/-- Store for the add-entry validation witness: song 8 does not exist and
block 40 belongs to setlist 2, not setlist 1. -/
def w7db : DB :=
  { setlists :=
      [ { id := 1, name := "S", description := none, band_id := none,
          created_by := 10, is_public := false } ],
    setlistSongs := [],
    blocks := [ { id := 40, setlist_id := 2, name := "Foreign", position := 1 } ],
    songs := [ { id := 7, title := "C" } ],
    bandMembers := [] }

/-- Store for the frame-effect witness: two entries for distinct songs. -/
def w8db : DB :=
  { setlists :=
      [ { id := 1, name := "S", description := none, band_id := none,
          created_by := 10, is_public := false } ],
    setlistSongs :=
      [ { id := 201, setlist_id := 1, song_id := 5, position := 1, block_id := none, notes := none },
        { id := 202, setlist_id := 1, song_id := 6, position := 2, block_id := none, notes := none } ],
    blocks := [],
    songs := [ { id := 5, title := "A" }, { id := 6, title := "B" }, { id := 7, title := "C" } ],
    bandMembers := [] }

/-- Store for the duplicate-song reducer witness: song 5 appears in two
distinct entries of setlist 1. -/
def w10db : DB :=
  { setlists :=
      [ { id := 1, name := "S", description := none, band_id := none,
          created_by := 10, is_public := false } ],
    setlistSongs :=
      [ { id := 301, setlist_id := 1, song_id := 5, position := 1, block_id := none, notes := none },
        { id := 302, setlist_id := 1, song_id := 5, position := 2, block_id := none, notes := none } ],
    blocks := [],
    songs := [ { id := 5, title := "A" } ],
    bandMembers := [] }

/-- List actually produced by `getSetlistSongs c2db 10 1`: globally sorted
by entry position, interleaving the two blocks. -/
def c2out : List SetlistSong :=
  [ { id := 102, setlist_id := 1, song_id := 6, position := 3, block_id := some 32, notes := none },
    { id := 101, setlist_id := 1, song_id := 5, position := 5, block_id := some 31, notes := none } ]

/-- Store left by deleting setlist 1 from `w5db`. -/
def w5dbAfter : DB :=
  { setlists := [], setlistSongs := [], blocks := [], songs := w5db.songs, bandMembers := [] }

/-- Store left by adding song 7 (new entry id 203) to setlist 1 of `w8db`. -/
def w8dbA : DB :=
  { w8db with
    setlistSongs :=
      w8db.setlistSongs ++
        [ { id := 203, setlist_id := 1, song_id := 7, position := 3, block_id := none, notes := none } ] }

/-- Store left by removing song 5 from setlist 1 of `w8db`. -/
def w8dbR : DB :=
  { w8db with
    setlistSongs :=
      [ { id := 202, setlist_id := 1, song_id := 6, position := 2, block_id := none, notes := none } ] }

/-- Store left by the server-side removal of song 5 from `w10db`: only the
first matching entry is destroyed. -/
def w10dbR : DB :=
  { w10db with
    setlistSongs :=
      [ { id := 302, setlist_id := 1, song_id := 5, position := 2, block_id := none, notes := none } ] }

/-! ### Helper lemmas -/

theorem all_filter_self {α : Type} (p : α → Bool) (l : List α) : (l.filter p).all p = true := by
  rw [List.all_eq_true]
  intro a ha
  exact (List.mem_filter.mp ha).2

theorem mem_removeFirst_of_pred_false {α : Type} (p : α → Bool) :
    ∀ l : List α, ∀ a ∈ l, p a = false → a ∈ removeFirst p l := by
  intro l
  induction l with
  | nil => intro a ha _; cases ha
  | cons x xs ih =>
    intro a ha hp
    rw [removeFirst]
    rcases List.mem_cons.mp ha with rfl | hmem
    · simp [hp]
    · by_cases hx : p x
      · simp [hx, hmem]
      · simp only [Bool.not_eq_true] at hx
        simp only [hx, Bool.false_eq_true, if_false, List.mem_cons]
        exact Or.inr (ih a hmem hp)

theorem removeFirst_length {α : Type} (p : α → Bool) :
    ∀ l : List α, (∃ a ∈ l, p a = true) → (removeFirst p l).length + 1 = l.length := by
  intro l
  induction l with
  | nil => rintro ⟨a, ha, -⟩; cases ha
  | cons x xs ih =>
    rintro ⟨a, ha, hp⟩
    rw [removeFirst]
    by_cases hx : p x
    · simp [hx]
    · have hax : a ∈ xs := by
        rcases List.mem_cons.mp ha with rfl | h
        · exact absurd hp hx
        · exact h
      simp only [Bool.not_eq_true] at hx
      simp only [hx, Bool.false_eq_true, if_false, List.length_cons]
      have := ih ⟨a, hax, hp⟩
      omega

theorem reorder_errors (db : DB) (userId slid : Nat) (songs : Option (List ReorderUpdate)) :
    ∃ e, reorderSetlistSongs db userId slid songs = .error e := by
  rcases songs with _ | us
  · exact ⟨.InvalidInput, rfl⟩
  · simp only [reorderSetlistSongs]
    split
    · exact ⟨.InvalidInput, rfl⟩
    · split
      · exact ⟨.NotFound, rfl⟩
      · split
        · rename_i e _
          exact ⟨e, rfl⟩
        · exact ⟨.ServerError, rfl⟩

theorem stateAfter_reorder (dbS dbC : DB) (userId slid : Nat)
    (songs : Option (List ReorderUpdate)) :
    stateAfter dbS (reorderSetlistSongs dbC userId slid songs) = dbS := by
  obtain ⟨e, he⟩ := reorder_errors dbC userId slid songs
  rw [he]
  rfl

theorem addSong_ok_shape (db dbA : DB) (userId slid newId : Nat) (r : AddSongReq)
    (h : addSongToSetlist db userId slid r newId = .ok dbA) :
    dbA = { db with setlistSongs := db.setlistSongs ++ [newEntry slid r newId] } := by
  rw [addSongToSetlist] at h
  split at h
  · simp at h
  · split at h
    · simp at h
    · split at h
      · split at h
        · split at h
          · simp at h
          · split at h
            · cases h
              rfl
            · simp at h
        · cases h
          rfl
      · simp at h

theorem removeSong_ok_shape (db dbR : DB) (userId slid songId : Nat)
    (h : removeSongFromSetlist db userId slid songId = .ok dbR) :
    ∃ e0, db.setlistSongs.find? (fun e => e.setlist_id == slid && e.song_id == songId) = some e0 ∧
      dbR = { db with setlistSongs := removeFirst (fun x => x.id == e0.id) db.setlistSongs } := by
  rw [removeSongFromSetlist] at h
  split at h
  · simp at h
  · split at h
    · simp at h
    · split at h
      · simp at h
      · rename_i e0 he0
        cases h
        exact ⟨e0, he0, rfl⟩

theorem removeSong_length (db dbR : DB) (userId slid songId : Nat)
    (h : removeSongFromSetlist db userId slid songId = .ok dbR) :
    dbR.setlistSongs.length + 1 = db.setlistSongs.length := by
  obtain ⟨e0, he0, rfl⟩ := removeSong_ok_shape db dbR userId slid songId h
  have hmem := List.mem_of_find?_eq_some he0
  exact removeFirst_length (fun x => x.id == e0.id) db.setlistSongs ⟨e0, hmem, by simp⟩

/-! ### Claim theorems -/

/-- C1 (confirmed): every `reorderEntries` call fails and persists
nothing — invalid payloads, missing setlists and denied actors fail
before the transaction, and any call that passes the write guard throws
on the never-imported `sequelize` before a single UPDATE runs, so the
handler responds 500 with the store untouched.  In particular a call in
which some update carries a nonexistent or foreign entry id fails as a
whole and leaves every entry's position and block assignment unchanged,
exactly as the claim states. -/
theorem c1_reorder_fails_and_persists_nothing (db : DB) (userId slid : Nat)
    (us : List ReorderUpdate) :
    isOkB (reorderSetlistSongs db userId slid (some us)) = false ∧
    stateAfter db (reorderSetlistSongs db userId slid (some us)) = db := by
  obtain ⟨e, he⟩ := reorder_errors db userId slid (some us)
  constructor
  · rw [he]
    rfl
  · exact stateAfter_reorder db db userId slid (some us)

/-- C2 (counterexample): the claim states that `listEntries` returns
entries grouped by ascending block position, then entry position within
the block.  On `c2db`, block 31 has position 1 and block 32 has position
2, yet the query sorts on entry position alone, so the entry of block 32
(entry position 3) precedes the entry of block 31 (entry position 5),
violating the claimed block grouping. -/
theorem c2_counterexample :
    getSetlistSongs c2db 10 1 = .ok c2out ∧ specGroupedByBlock c2db c2out = false :=
  ⟨by decide, by decide⟩

/-- C2 (amended): `listEntries` returns the setlist's entries sorted by
ascending entry position alone (a stable sort over the stored rows);
block positions play no part in the ordering. -/
theorem c2_amended_sorted_by_position (db : DB) (userId slid : Nat) (l : List SetlistSong)
    (h : getSetlistSongs db userId slid = .ok l) :
    List.Sorted entryLe l ∧ l.Perm (songsOf db slid) := by
  rw [getSetlistSongs] at h
  split at h
  · simp at h
  · split at h
    · cases h
      exact ⟨List.sorted_insertionSort entryLe _, List.perm_insertionSort entryLe _⟩
    · split at h
      · simp at h
      · cases h
        exact ⟨List.sorted_insertionSort entryLe _, List.perm_insertionSort entryLe _⟩
      · simp at h

/-- C2 (witness): the amended statement instantiated on the
counterexample store. -/
theorem c2_witness :
    List.Sorted entryLe c2out ∧ c2out.Perm (songsOf c2db 1) :=
  c2_amended_sorted_by_position c2db 10 1 c2out (by decide)

/-- C3 (code bug): a stranger (user 99, neither creator nor band member,
setlists private) should be denied with 403 on every operation, but two
paths crash into 500 instead: `getSetlistById` on the band-less setlist 1
dereferences `.members` of the null `band` (TypeError), and
`getSetlistSongs` on the banded setlist 2 calls the helper, which
references the never-imported `BandMember` (ReferenceError).  The
remaining two combinations do return `PermissionDenied`: get-by-id on a
banded setlist uses the eager-loaded `band.members` list, and list-songs
on a band-less setlist takes the helper's null-safe branch. -/
theorem c3_stranger_access :
    getSetlistById c3db 99 1 = .error .ServerError ∧
    getSetlistById c3db 99 2 = .error .PermissionDenied ∧
    getSetlistSongs c3db 99 1 = .error .PermissionDenied ∧
    getSetlistSongs c3db 99 2 = .error .ServerError :=
  ⟨by decide, by decide, by decide, by decide⟩

/-- C4 (code bug): the claimed admin-vs-member asymmetry does not exist
at runtime.  Every non-creator path on a banded setlist — update and
delete (inline admin check) as well as add, remove and reorder (the
membership helper) — references the never-imported `BandMember` and
responds 500, for plain member 20 and band admin 30 alike; reorder
responds 500 even for the creator (user 10), because `sequelize` is never
imported either.  Evaluated on the concrete store `w4db`. -/
theorem c4_band_member_paths_return_500 :
    updateSetlist w4db 20 1 { name := none, description := none, is_public := none } =
      .error .ServerError ∧
    updateSetlist w4db 30 1 { name := none, description := none, is_public := none } =
      .error .ServerError ∧
    deleteSetlist w4db 20 1 = .error .ServerError ∧
    deleteSetlist w4db 30 1 = .error .ServerError ∧
    addSongToSetlist w4db 20 1
      { song_id := 7, position := 4, block_id := none, notes := none } 400 = .error .ServerError ∧
    removeSongFromSetlist w4db 30 1 7 = .error .ServerError ∧
    reorderSetlistSongs w4db 20 1 (some [ { id := 300, position := 2, block_id := none } ]) =
      .error .ServerError ∧
    reorderSetlistSongs w4db 10 1 (some [ { id := 300, position := 2, block_id := none } ]) =
      .error .ServerError :=
  ⟨by decide, by decide, by decide, by decide, by decide, by decide, by decide, by decide⟩

/-- C5 (confirmed): a successful delete of a setlist removes every
`setlist_songs` row and every `blocks` row carrying that setlist id; no
such row remains afterwards. -/
theorem c5_delete_cascades (db dbAfter : DB) (userId slid : Nat)
    (h : deleteSetlist db userId slid = .ok dbAfter) :
    dbAfter.setlistSongs.all (fun e => !(e.setlist_id == slid)) = true ∧
    dbAfter.blocks.all (fun bl => !(bl.setlist_id == slid)) = true := by
  rw [deleteSetlist] at h
  split at h
  · simp at h
  · split at h
    · cases h
      exact ⟨all_filter_self _ _, all_filter_self _ _⟩
    · split at h
      · simp at h
      · simp at h

/-- C5 (witness): deleting setlist 1 of `w5db` (three blocks, two
entries) leaves no row referencing it. -/
theorem c5_witness :
    w5dbAfter.setlistSongs.all (fun e => !(e.setlist_id == 1)) = true ∧
    w5dbAfter.blocks.all (fun bl => !(bl.setlist_id == 1)) = true :=
  c5_delete_cascades w5db w5dbAfter 10 1 (by decide)

/-- C6 (confirmed): calling `reorderEntries` twice with the identical
update list leaves the entries in the same final state as calling it
once.  The property holds degenerately: no reorder call ever mutates the
store — the transaction throws on the never-imported `sequelize` (and
invalid payloads, missing setlists and denied actors fail earlier) — so
the store after the second call is exactly the store the first call left,
for every store, actor, setlist id and payload. -/
theorem c6_reorder_idempotent (db : DB) (userId slid : Nat)
    (songs : Option (List ReorderUpdate)) :
    stateAfter (stateAfter db (reorderSetlistSongs db userId slid songs))
      (reorderSetlistSongs (stateAfter db (reorderSetlistSongs db userId slid songs))
        userId slid songs) =
    stateAfter db (reorderSetlistSongs db userId slid songs) :=
  stateAfter_reorder _ _ userId slid songs

/-- C7 (confirmed): `addEntry` rejects a nonexistent song with `NotFound`
and a block that does not belong to the target setlist with
`InvalidInput`; in both cases the call returns an error, so no entry is
created. -/
theorem c7_add_validation (db : DB) (userId slid newId bId : Nat) (s : Setlist)
    (r1 r2 : AddSongReq)
    (hfind : findSetlist db slid = some s)
    (hguard : writeGuard userId s = .ok ())
    (hnosong : (db.songs.any (fun t => t.id == r1.song_id)) = false)
    (hsong : (db.songs.any (fun t => t.id == r2.song_id)) = true)
    (hblk : r2.block_id = some bId)
    (hbad : ∀ bl ∈ db.blocks, bl.id = bId → ¬ bl.setlist_id = slid) :
    addSongToSetlist db userId slid r1 newId = .error .NotFound ∧
    addSongToSetlist db userId slid r2 newId = .error .InvalidInput := by
  constructor
  · simp only [addSongToSetlist, hfind, hguard, hnosong, Bool.false_eq_true, if_false]
  · simp only [addSongToSetlist, hfind, hguard, hsong, if_true, hblk]
    cases hfb : db.blocks.find? (fun bl => bl.id == bId) with
    | none => rfl
    | some bl =>
      have hmem := List.mem_of_find?_eq_some hfb
      have hid0 := List.find?_some hfb
      have hid : (bl.id == bId) = true := hid0
      have hns : ¬ bl.setlist_id = slid := hbad bl hmem (by simpa using hid)
      have hbs : (bl.setlist_id == slid) = false := by simpa using hns
      simp only [hbs, Bool.false_eq_true, if_false]

/-- C7 (witness): on `w7db`, adding song 8 (nonexistent) is `NotFound`,
and adding song 7 into block 40 (which belongs to setlist 2) is
`InvalidInput`. -/
theorem c7_witness :
    addSongToSetlist w7db 10 1 { song_id := 8, position := 1, block_id := none, notes := none } 500 =
      .error .NotFound ∧
    addSongToSetlist w7db 10 1 { song_id := 7, position := 1, block_id := some 40, notes := none } 500 =
      .error .InvalidInput :=
  c7_add_validation w7db 10 1 500 40
    { id := 1, name := "S", description := none, band_id := none, created_by := 10, is_public := false }
    { song_id := 8, position := 1, block_id := none, notes := none }
    { song_id := 7, position := 1, block_id := some 40, notes := none }
    (by decide) (by decide) (by decide) (by decide) rfl (by decide)

/-- C8 (confirmed): a successful `addEntry` keeps every pre-existing
entry verbatim (same position and block), and a successful `removeEntry`
keeps every entry other than the removed one verbatim, removing exactly
one row; neither operation renumbers siblings.  Entry ids are assumed
unique, as they are primary keys. -/
theorem c8_frame (db dbA dbR : DB) (userId slid newId songId : Nat) (r : AddSongReq)
    (hA : addSongToSetlist db userId slid r newId = .ok dbA)
    (hR : removeSongFromSetlist db userId slid songId = .ok dbR)
    (hids : (db.setlistSongs.map (fun e => e.id)).Nodup) :
    (∀ e ∈ db.setlistSongs, e ∈ dbA.setlistSongs) ∧
    (∀ e ∈ db.setlistSongs, (e.setlist_id == slid && e.song_id == songId) = false →
      e ∈ dbR.setlistSongs) ∧
    dbR.setlistSongs.length + 1 = db.setlistSongs.length := by
  refine ⟨?_, ?_, removeSong_length db dbR userId slid songId hR⟩
  · intro e he
    rw [addSong_ok_shape db dbA userId slid newId r hA]
    exact List.mem_append_left _ he
  · intro e he hne
    obtain ⟨e0, he0, rfl⟩ := removeSong_ok_shape db dbR userId slid songId hR
    have he0mem := List.mem_of_find?_eq_some he0
    have he0p0 := List.find?_some he0
    have he0p : (e0.setlist_id == slid && e0.song_id == songId) = true := he0p0
    have hne2 : e ≠ e0 := by
      intro hcontra
      rw [hcontra, he0p] at hne
      simp at hne
    have hid : ((fun x => x.id == e0.id) e) = false := by
      have : ¬ e.id = e0.id := fun hideq =>
        hne2 (List.inj_on_of_nodup_map hids he he0mem hideq)
      simpa using this
    exact mem_removeFirst_of_pred_false _ db.setlistSongs e he hid

/-- C8 (witness): on `w8db`, adding song 7 keeps entries 201 and 202
untouched, and removing song 5 keeps entry 202 untouched while deleting
exactly one row. -/
theorem c8_witness :
    (∀ e ∈ w8db.setlistSongs, e ∈ w8dbA.setlistSongs) ∧
    (∀ e ∈ w8db.setlistSongs, (e.setlist_id == 1 && e.song_id == 5) = false →
      e ∈ w8dbR.setlistSongs) ∧
    w8dbR.setlistSongs.length + 1 = w8db.setlistSongs.length :=
  c8_frame w8db w8dbA w8dbR 10 1 203 5
    { song_id := 7, position := 3, block_id := none, notes := none }
    (by decide) (by decide) (by decide)

/-- C9 (confirmed): a reorder request whose `songs` payload is missing or
empty is rejected with `InvalidInput` for every store, every actor and
every setlist id — in particular even when the setlist does not exist or
the actor has no permission, showing the check precedes the lookup and
the permission check; the error return leaves the store untouched. -/
theorem c9_missing_or_empty_updates_rejected (db : DB) (userId slid : Nat) :
    reorderSetlistSongs db userId slid none = .error .InvalidInput ∧
    reorderSetlistSongs db userId slid (some []) = .error .InvalidInput :=
  ⟨rfl, rfl⟩

/-- C10 (confirmed): the Redux reducer for a fulfilled
`removeSongFromSetlist` drops every client-side entry whose `song_id`
equals the removed id (and only those), while the server removes exactly
one row. -/
theorem c10_reducer_removes_every_match (db dbR : DB) (userId slid songId : Nat)
    (l : List SetlistSong)
    (hserver : removeSongFromSetlist db userId slid songId = .ok dbR) :
    (∀ e ∈ removeSongFulfilled l songId, ¬ e.song_id = songId) ∧
    (∀ e ∈ l, ¬ e.song_id = songId → e ∈ removeSongFulfilled l songId) ∧
    dbR.setlistSongs.length + 1 = db.setlistSongs.length := by
  refine ⟨?_, ?_, removeSong_length db dbR userId slid songId hserver⟩
  · intro e he
    have hp := (List.mem_filter.mp he).2
    simpa using hp
  · intro e he hne
    exact List.mem_filter.mpr ⟨he, by simpa using hne⟩

/-- C10 (witness): on `w10db`, song 5 appears in entries 301 and 302; the
server-side removal deletes exactly one row (301), while the reducer
applied to the pre-removal client state drops both. -/
theorem c10_witness :
    ((∀ e ∈ removeSongFulfilled w10db.setlistSongs 5, ¬ e.song_id = 5) ∧
      (∀ e ∈ w10db.setlistSongs, ¬ e.song_id = 5 → e ∈ removeSongFulfilled w10db.setlistSongs 5) ∧
      w10dbR.setlistSongs.length + 1 = w10db.setlistSongs.length) ∧
    removeSongFulfilled w10db.setlistSongs 5 = [] :=
  ⟨c10_reducer_removes_every_match w10db w10dbR 10 1 5 w10db.setlistSongs (by decide), by decide⟩

end SetlistApp
